import Mathlib

/-!
# Verification of the Athena API-hub call-routing and correlation engine

Shallow embedding of `src/athena/api_integration/base/api_hub.py`
(`AAISAPIHub.processMessage`), `src/athena/api_integration/base/api_server.py`
(`AAISAPIServer.APICallRecordTable`) and
`src/athena/api_integration/base/messages.py`, together with the core packet
types from `src/athena/core`.

Modelling conventions:
* `AAISProcessAddress` is an opaque equality-comparable identifier; we embed
  it as `Nat`.  `AAISThinkingLanguageContent` is an opaque payload; we embed
  it as `String`.  Call-record identifiers are `Nat`.
* The three Python packet classes (`AAISMessagePacket` base,
  `AAISAPIServerReportPacket`, `AAISAPIServerAPIRequestRoutePacket`) are
  embedded as one structure with a metadata variant; `isinstance` checks in
  the Python source become matches on the variant.
* The abstract async decision methods of `AAISAPIHub` (LLM-backed in the
  concrete subclasses) are embedded as an explicit bundle of pure functions,
  `HubBackend`.
* Python's in-place mutation of a record held in the table's set is embedded
  as replacement of the record with the same identifier
  (`APICallRecordTable.updateRecord`); a completed `processMessage` execution
  is a pure function from (table, inbound packet) to an outcome carrying the
  final table and the list of packets given to `systemHandle.sendMessage`
  (each with its destination address, in send order).
* A failing Python `assert` raises `AssertionError`, aborting the task after
  having performed all the state changes and sends that preceded it; this is
  embedded as the outcome constructor `ProcessOutcome.assertionError`
  carrying the table state and the sends performed up to the failure point.
-/

namespace Athena

/-- Embeds `AAISProcessAddress`: an opaque, equality-comparable identifier. -/
abbrev AAISProcessAddress := Nat

/-- Embeds `AAISThinkingLanguageContent`: an opaque payload value. -/
abbrev AAISThinkingLanguageContent := String

/-- Identifier of an API call record (`identifier: Any` in the source). -/
abbrev CallId := Nat

/-- Embeds `AAISMessagePacket.Header.MessageType` from
`src/athena/core/message.py`. -/
inductive MessageType where
  | communication
  | endProcess
deriving DecidableEq, Repr

/-- Embeds `AAISMessagePacket.Header`. -/
structure Header where
  messageType : MessageType
  senderAddress : AAISProcessAddress
deriving DecidableEq, Repr

/-- The metadata that distinguishes the three packet dataclasses of the
source: the base `AAISMessagePacket` (no metadata),
`AAISAPIServerAPIRequestRoutePacket` (`RouteMetadata` with a required
`upstreamApiCallRecordIdentifier`) and `AAISAPIServerReportPacket`
(`ReportMetadata` with an optional `upstreamApiCallRecordIdentifier`). -/
inductive PacketMetadata where
  | plain
  | route (upstreamApiCallRecordIdentifier : CallId)
  | report (upstreamApiCallRecordIdentifier : Option CallId)
deriving DecidableEq, Repr

/-- Embeds a packet: header, content, and variant-specific metadata. -/
structure AAISMessagePacket where
  header : Header
  content : AAISThinkingLanguageContent
  metadata : PacketMetadata
deriving DecidableEq, Repr

/-- Embeds `AAISResult` from `src/athena/core/result_type.py`:
`success: bool`, `value: Optional[T]`, `errorMessage: Optional[U]`. -/
structure AAISResult (T U : Type) where
  success : Bool
  value : Option T
  errorMessage : Option U
deriving DecidableEq, Repr

/-- Embeds `AAISAPIServer.APIServerMessageType`. -/
inductive APIServerMessageType where
  | REQUEST
  | RETURN_MESSAGE
deriving DecidableEq, Repr

/-- Embeds `AAISAPIServer.APICallRecordTable.Record.APICallStatus`. -/
inductive APICallStatus where
  | UNHANDLED
  | RUNNING
  | SUCCESS
  | FAILURE
deriving DecidableEq, Repr

/-- Embeds `AAISAPIServer.APICallRecordTable.Record`. -/
structure Record where
  description : AAISThinkingLanguageContent
  identifier : CallId
  parentIdentifier : Option CallId
  senderAddress : AAISProcessAddress
  status : APICallStatus
deriving DecidableEq, Repr

/-- Embeds `AAISAPIServer.APICallRecordTable`.  The Python table holds a
`Set` of mutable record objects; we embed it as a list of records together
with the state of the id allocator (`nextIdentifier`), following the spec's
monotonic-counter allocation strategy (the allocator itself is a TODO stub
in the source, see `createEntry`). -/
structure APICallRecordTable where
  records : List Record
  nextIdentifier : CallId
deriving DecidableEq, Repr

/-- Modelled from the spec: the body of
`AAISAPIServer.APICallRecordTable.createEntry` is a TODO stub in
`src/athena/api_integration/base/api_server.py`; its docstring and the spec
(§4.2, §9) say it generates a fresh unique id (an atomically-incremented
counter), creates an entry with that id, adds the entry to the table, and
returns the reference to the entry.  The hub's call site passes no field
values and assigns `description`, `senderAddress`, `status` and
`parentIdentifier` immediately afterwards, so the entry is created with
placeholder field values and status UNHANDLED. -/
def APICallRecordTable.createEntry (t : APICallRecordTable) :
    Record × APICallRecordTable :=
  let r : Record :=
    { description := ""
      identifier := t.nextIdentifier
      parentIdentifier := none
      senderAddress := 0
      status := APICallStatus.UNHANDLED }
  (r, { records := t.records ++ [r], nextIdentifier := t.nextIdentifier + 1 })

/-- Modelled from the spec: the body of
`AAISAPIServer.APICallRecordTable.findRecordWithID` is a TODO stub in
`src/athena/api_integration/base/api_server.py`; per the spec (§4.2) it
returns a typed found/not-found outcome (`AAISResult`), never throwing:
success carrying the record with the given identifier when one exists,
and a typed "not found" failure otherwise. -/
def APICallRecordTable.findRecordWithID (t : APICallRecordTable)
    (identifier : CallId) : AAISResult Record AAISThinkingLanguageContent :=
  match t.records.find? (fun r => r.identifier == identifier) with
  | some r => { success := true, value := some r, errorMessage := none }
  | none =>
    { success := false, value := none, errorMessage := some "record not found" }

/-- Embeds the in-place mutation of a record object held in the table's set:
the record with the matching identifier is replaced by the updated record. -/
def APICallRecordTable.updateRecord (t : APICallRecordTable) (r : Record) :
    APICallRecordTable :=
  { t with
    records := t.records.map fun x =>
      if x.identifier == r.identifier then r else x }

/-- Embeds `AAISAPIHub.ErrorType`. -/
inductive ErrorType where
  | FAILED_TO_DETERMINE_MESSAGE_TYPE
  | FAILED_TO_FIND_HANDLER
  | FAILED_TO_MATCH_API_CALL_RECORD
  | EXECUTION_ERROR
  | FAILED_TO_DETERMINE_CHILD_SERVER_RETURN_RESULT_TYPE
deriving DecidableEq, Repr

/-- Embeds `AAISAPIHub.APICallReturnResultType`. -/
inductive APICallReturnResultType where
  | SUCCESS
  | FAILURE
deriving DecidableEq, Repr

/-- Embeds `AAISProcess.ReferenceTable.Entry` as used by the hub: the
referee's address (`refereeAddress`, the dispatch target) and its
description. -/
structure ReferenceTableEntry where
  refereeAddress : AAISProcessAddress
  refereeDescription : AAISThinkingLanguageContent
deriving DecidableEq, Repr

/-- The bundle of abstract decision methods of `AAISAPIHub`
(`determineMessageType`, `summarizeRequest`, `selectHandler`,
`formatErrorMessage`, `formatRequestForChildServer`,
`formatReturnMessageForParent`, `determineAPICallReturnResultType`),
embedded as pure functions supplied by the concrete hub. -/
structure HubBackend where
  determineMessageType :
    AAISMessagePacket →
      AAISResult APIServerMessageType AAISThinkingLanguageContent
  summarizeRequest : AAISThinkingLanguageContent → AAISThinkingLanguageContent
  selectHandler :
    AAISThinkingLanguageContent →
      AAISResult ReferenceTableEntry AAISThinkingLanguageContent
  formatErrorMessage :
    ErrorType → Option AAISThinkingLanguageContent →
      AAISThinkingLanguageContent
  formatRequestForChildServer :
    AAISThinkingLanguageContent → ReferenceTableEntry →
      AAISThinkingLanguageContent
  formatReturnMessageForParent :
    AAISThinkingLanguageContent → Record → AAISThinkingLanguageContent
  determineAPICallReturnResultType :
    AAISThinkingLanguageContent → Record →
      AAISResult APICallReturnResultType AAISThinkingLanguageContent

/-- A packet handed to `systemHandle.sendMessage` together with its
destination address. -/
structure SentPacket where
  packet : AAISMessagePacket
  destination : AAISProcessAddress
deriving DecidableEq, Repr

/-- Outcome of one completed `processMessage` task: either normal completion
or an `AssertionError` aborting the task; both carry the final state of the
call-record table and the packets sent (in order) before termination. -/
inductive ProcessOutcome where
  | ok (table : APICallRecordTable) (sent : List SentPacket)
  | assertionError (table : APICallRecordTable) (sent : List SentPacket)
deriving DecidableEq, Repr

/-- The final call-record table of an outcome. -/
def ProcessOutcome.table : ProcessOutcome → APICallRecordTable
  | .ok t _ => t
  | .assertionError t _ => t

/-- The packets sent during the execution, in order. -/
def ProcessOutcome.sent : ProcessOutcome → List SentPacket
  | .ok _ s => s
  | .assertionError _ s => s

/-- Whether the outcome is a normal completion. -/
def ProcessOutcome.isOk : ProcessOutcome → Bool
  | .ok _ _ => true
  | .assertionError _ _ => false

/-- The `upstreamApiCallRecordIdentifier` the hub reads off an inbound
packet's route metadata: `receivedMessage.routeMetadata.upstreamApiCallRecordIdentifier
if isinstance(receivedMessage, AAISAPIServerAPIRequestRoutePacket) else None`. -/
def routeUpstreamId (p : AAISMessagePacket) : Option CallId :=
  match p.metadata with
  | .route identifier => some identifier
  | _ => none

/-- Embeds `AAISAPIHub.processMessage` from
`src/athena/api_integration/base/api_hub.py` (lines 37–218), run to
completion on one inbound packet.  `selfAddress` is `self.address`; `t` is
`self._apiCallRecords` at entry. -/
def processMessage (hub : HubBackend) (selfAddress : AAISProcessAddress)
    (t : APICallRecordTable) (receivedMessage : AAISMessagePacket) :
    ProcessOutcome :=
  let messageTypeResult := hub.determineMessageType receivedMessage
  if messageTypeResult.success then
    match messageTypeResult.value with
    | some APIServerMessageType.REQUEST =>
      -- 1. Update the API call table
      let created := t.createEntry
      let newRecord : Record :=
        { created.1 with
          description := hub.summarizeRequest receivedMessage.content
          senderAddress := receivedMessage.header.senderAddress
          status := APICallStatus.UNHANDLED
          parentIdentifier := routeUpstreamId receivedMessage }
      let t1 := created.2.updateRecord newRecord
      -- 2. Forward the request to the correct child API server
      let handlerMatchResult := hub.selectHandler receivedMessage.content
      if handlerMatchResult.success then
        match handlerMatchResult.value with
        | some handlerEntry =>
          let dispatchMessage :=
            hub.formatRequestForChildServer receivedMessage.content
              handlerEntry
          let dispatchPacket : AAISMessagePacket :=
            { header :=
                { messageType := MessageType.communication
                  senderAddress := selfAddress }
              content := dispatchMessage
              metadata := PacketMetadata.route newRecord.identifier }
          let runningRecord := { newRecord with status := APICallStatus.RUNNING }
          ProcessOutcome.ok (t1.updateRecord runningRecord)
            [{ packet := dispatchPacket
               destination := handlerEntry.refereeAddress }]
        | none =>
          -- assert handler_match_result.value is not None
          ProcessOutcome.assertionError t1 []
      else
        -- failed to find handler
        let errorMessage :=
          hub.formatErrorMessage ErrorType.FAILED_TO_FIND_HANDLER
            handlerMatchResult.errorMessage
        let returnPacket : AAISMessagePacket :=
          { header :=
              { messageType := MessageType.communication
                senderAddress := selfAddress }
            content := errorMessage
            metadata := PacketMetadata.report newRecord.parentIdentifier }
        let failedRecord := { newRecord with status := APICallStatus.FAILURE }
        ProcessOutcome.ok (t1.updateRecord failedRecord)
          [{ packet := returnPacket
             destination := receivedMessage.header.senderAddress }]
    | some APIServerMessageType.RETURN_MESSAGE =>
      match receivedMessage.metadata with
      | PacketMetadata.report (some upstreamId) =>
        -- 1. Find the corresponding record in the API call table
        let recordMatchResult := t.findRecordWithID upstreamId
        if recordMatchResult.success then
          match recordMatchResult.value with
          | some record =>
            if record.status = APICallStatus.RUNNING then
              let returnResultTypeResult :=
                hub.determineAPICallReturnResultType
                  receivedMessage.content record
              if returnResultTypeResult.success then
                let updatedRecord :=
                  match returnResultTypeResult.value with
                  | some APICallReturnResultType.SUCCESS =>
                    { record with status := APICallStatus.SUCCESS }
                  | some APICallReturnResultType.FAILURE =>
                    { record with status := APICallStatus.FAILURE }
                  | none => record
                let parentReturnMessage :=
                  hub.formatReturnMessageForParent receivedMessage.content
                    updatedRecord
                let parentReturnPacket : AAISMessagePacket :=
                  { header :=
                      { messageType := MessageType.communication
                        senderAddress := selfAddress }
                    content := parentReturnMessage
                    metadata :=
                      PacketMetadata.report updatedRecord.parentIdentifier }
                ProcessOutcome.ok (t.updateRecord updatedRecord)
                  [{ packet := parentReturnPacket
                     destination := updatedRecord.senderAddress }]
              else
                -- failed to determine the return result type
                let returnMessage :=
                  hub.formatErrorMessage
                    ErrorType.FAILED_TO_DETERMINE_CHILD_SERVER_RETURN_RESULT_TYPE
                    returnResultTypeResult.errorMessage
                let returnPacket : AAISMessagePacket :=
                  { header :=
                      { messageType := MessageType.communication
                        senderAddress := selfAddress }
                    content := returnMessage
                    metadata := PacketMetadata.plain }
                ProcessOutcome.ok t
                  [{ packet := returnPacket
                     destination := receivedMessage.header.senderAddress }]
            else
              -- assert record.status == RUNNING
              ProcessOutcome.assertionError t []
          | none =>
            -- assert record_match_result.value is not None
            ProcessOutcome.assertionError t []
        else
          -- failed to find record matching the return message
          let returnMessage :=
            hub.formatErrorMessage ErrorType.FAILED_TO_MATCH_API_CALL_RECORD
              recordMatchResult.errorMessage
          let returnPacket : AAISMessagePacket :=
            { header :=
                { messageType := MessageType.communication
                  senderAddress := selfAddress }
              content := returnMessage
              metadata := PacketMetadata.plain }
          ProcessOutcome.ok t
            [{ packet := returnPacket
               destination := receivedMessage.header.senderAddress }]
      | _ =>
        -- assert isinstance(receivedMessage, AAISAPIServerReportPacket) and
        --        receivedMessage.reportMetadata.upstreamApiCallRecordIdentifier
        --        is not None
        ProcessOutcome.assertionError t []
    | none =>
      -- `match` on a None value falls through both cases; nothing happens
      ProcessOutcome.ok t []
  else
    -- failed to determine the message's type
    let returnMessage :=
      hub.formatErrorMessage ErrorType.FAILED_TO_DETERMINE_MESSAGE_TYPE none
    let returnPacket : AAISMessagePacket :=
      { header :=
          { messageType := MessageType.communication
            senderAddress := selfAddress }
        content := returnMessage
        metadata := PacketMetadata.report (routeUpstreamId receivedMessage) }
    ProcessOutcome.ok t
      [{ packet := returnPacket
         destination := receivedMessage.header.senderAddress }]

/-- Well-formedness of a call-record table, maintained by `createEntry`'s
monotonic-counter allocation: every stored identifier is below the counter,
and stored identifiers are pairwise distinct. -/
def APICallRecordTable.WF (t : APICallRecordTable) : Prop :=
  (∀ r ∈ t.records, r.identifier < t.nextIdentifier) ∧
    (t.records.map Record.identifier).Nodup

instance (t : APICallRecordTable) : Decidable t.WF := by
  unfold APICallRecordTable.WF
  infer_instance

/-- A sequence of `n` successive `createEntry()` calls on a table: the list
of returned record handles (in call order) and the final table. -/
def APICallRecordTable.createEntries (t : APICallRecordTable) :
    Nat → List Record × APICallRecordTable
  | 0 => ([], t)
  | n + 1 =>
    let c := t.createEntry
    let rest := c.2.createEntries n
    (c.1 :: rest.1, rest.2)

/-- The legal moves of the record status state machine, staying put
included: UNHANDLED → RUNNING, UNHANDLED → FAILURE, RUNNING → SUCCESS,
RUNNING → FAILURE. -/
def legalStatusStep (s s' : APICallStatus) : Prop :=
  s = s' ∨
    (s = APICallStatus.UNHANDLED ∧ s' = APICallStatus.RUNNING) ∨
    (s = APICallStatus.UNHANDLED ∧ s' = APICallStatus.FAILURE) ∨
    (s = APICallStatus.RUNNING ∧ s' = APICallStatus.SUCCESS) ∨
    (s = APICallStatus.RUNNING ∧ s' = APICallStatus.FAILURE)

instance (s s' : APICallStatus) : Decidable (legalStatusStep s s') := by
  unfold legalStatusStep
  infer_instance

/-- The record status written by the REPLY path for a determined return
result type (the SUCCESS/FAILURE match in `processMessage`). -/
def resultStatus : APICallReturnResultType → APICallStatus
  | APICallReturnResultType.SUCCESS => APICallStatus.SUCCESS
  | APICallReturnResultType.FAILURE => APICallStatus.FAILURE

/-! ### A concrete hub instance

A small executable hub — the spec's concrete scenario (§8): reference
entries for two children, requests classified by metadata, handler selected
for the payload "resize photo" — used to evaluate the theorems below on
concrete inputs. -/

/-- Address of the demo hub process. -/
def hubAddress : AAISProcessAddress := 10

/-- Address of the original caller in the demo scenario. -/
def callerAddress : AAISProcessAddress := 1

/-- Address of demo child server A ("handles images"). -/
def childAddressA : AAISProcessAddress := 2

/-- The demo hub's reference-table entry for child A. -/
def entryA : ReferenceTableEntry :=
  { refereeAddress := childAddressA, refereeDescription := "handles images" }

/-- A concrete decision-function bundle: packets with content "garbled" are
unclassifiable; report packets are replies and the rest are requests; only
the payload "resize photo" finds a handler (child A); reply payload "done"
means SUCCESS and "failed" means FAILURE, anything else is undeterminable. -/
def demoHub : HubBackend where
  determineMessageType p :=
    if p.content = "garbled" then
      { success := false, value := none, errorMessage := some "cannot tell" }
    else
      match p.metadata with
      | PacketMetadata.report _ =>
        { success := true, value := some APIServerMessageType.RETURN_MESSAGE
          errorMessage := none }
      | _ =>
        { success := true, value := some APIServerMessageType.REQUEST
          errorMessage := none }
  summarizeRequest c := "summary: " ++ c
  selectHandler c :=
    if c = "resize photo" then
      { success := true, value := some entryA, errorMessage := none }
    else
      { success := false, value := none, errorMessage := some "no handler" }
  formatErrorMessage _ m := "error: " ++ m.getD ""
  formatRequestForChildServer c _ := "for child: " ++ c
  formatReturnMessageForParent c _ := "for parent: " ++ c
  determineAPICallReturnResultType c _ :=
    if c = "done" then
      { success := true, value := some APICallReturnResultType.SUCCESS
        errorMessage := none }
    else if c = "failed" then
      { success := true, value := some APICallReturnResultType.FAILURE
        errorMessage := none }
    else
      { success := false, value := none, errorMessage := some "unclear" }

/-- A record of the demo hub for an in-flight dispatched call: id 7, parent
call id 4, awaiting the child's reply. -/
def runningRecord : Record :=
  { description := "summary: resize photo"
    identifier := 7
    parentIdentifier := some 4
    senderAddress := callerAddress
    status := APICallStatus.RUNNING }

/-- Demo table holding the single RUNNING record. -/
def tableWithRunning : APICallRecordTable :=
  { records := [runningRecord], nextIdentifier := 8 }

/-- The same record after a first reply already moved it to SUCCESS. -/
def doneRecord : Record := { runningRecord with status := APICallStatus.SUCCESS }

/-- Demo table holding the single already-completed record. -/
def tableWithDone : APICallRecordTable :=
  { records := [doneRecord], nextIdentifier := 8 }

/-- Inbound demo REQUEST packet from the caller, routed with upstream call
id 4. -/
def requestPacket : AAISMessagePacket :=
  { header :=
      { messageType := MessageType.communication
        senderAddress := callerAddress }
    content := "resize photo"
    metadata := PacketMetadata.route 4 }

/-- Inbound demo REQUEST packet whose payload no handler matches. -/
def unroutablePacket : AAISMessagePacket :=
  { header :=
      { messageType := MessageType.communication
        senderAddress := callerAddress }
    content := "fold laundry"
    metadata := PacketMetadata.route 4 }

/-- Inbound demo REPLY packet from child A correlated to record 7. -/
def replyPacket : AAISMessagePacket :=
  { header :=
      { messageType := MessageType.communication
        senderAddress := childAddressA }
    content := "done"
    metadata := PacketMetadata.report (some 7) }

/-- Inbound demo REPLY packet correlated to an id absent from the table. -/
def unmatchedReplyPacket : AAISMessagePacket :=
  { header :=
      { messageType := MessageType.communication
        senderAddress := childAddressA }
    content := "done"
    metadata := PacketMetadata.report (some 99) }

/-- Inbound demo REPLY packet carrying no correlation id. -/
def uncorrelatedReplyPacket : AAISMessagePacket :=
  { header :=
      { messageType := MessageType.communication
        senderAddress := childAddressA }
    content := "done"
    metadata := PacketMetadata.report none }

/-- Inbound demo packet whose type cannot be determined. -/
def garbledPacket : AAISMessagePacket :=
  { header :=
      { messageType := MessageType.communication
        senderAddress := callerAddress }
    content := "garbled"
    metadata := PacketMetadata.plain }

/-! ### Supporting lemmas on the record table -/

theorem createEntry_fst_identifier (t : APICallRecordTable) :
    t.createEntry.1.identifier = t.nextIdentifier := rfl

theorem createEntry_snd_records (t : APICallRecordTable) :
    t.createEntry.2.records = t.records ++ [t.createEntry.1] := rfl

theorem updateRecord_getElem? (t : APICallRecordTable) (r : Record) (i : Nat)
    (old : Record) (h : t.records[i]? = some old) :
    (t.updateRecord r).records[i]? =
      some (if old.identifier == r.identifier then r else old) := by
  simp [APICallRecordTable.updateRecord, h]

theorem updateRecord_getElem?_of_ne (t : APICallRecordTable) (r : Record)
    (i : Nat) (old : Record) (h : t.records[i]? = some old)
    (hne : old.identifier ≠ r.identifier) :
    (t.updateRecord r).records[i]? = some old := by
  rw [updateRecord_getElem? t r i old h]
  simp [hne]

/-- Replacing a record no stored record's identifier matches is a no-op on
the underlying list. -/
theorem map_update_of_fresh (l : List Record) (r : Record)
    (h : ∀ x ∈ l, x.identifier ≠ r.identifier) :
    (l.map fun x => if x.identifier == r.identifier then r else x) = l := by
  have hcongr :
      (l.map fun x => if x.identifier == r.identifier then r else x) =
        l.map fun x => x :=
    List.map_congr_left fun x hx => by simp [h x hx]
  rw [hcongr, List.map_id']

theorem updateRecord_records (t : APICallRecordTable) (r : Record) :
    (t.updateRecord r).records =
      t.records.map fun x => if x.identifier == r.identifier then r else x :=
  rfl

theorem table_ext (u : APICallRecordTable) (l : List Record) (n : CallId)
    (hr : u.records = l) (hn : u.nextIdentifier = n) :
    u = { records := l, nextIdentifier := n } := by
  cases u
  cases hr
  cases hn
  rfl

/-- The table produced by the REQUEST path: create an entry, then twice
replace the entry (whose identifier is the freshly allocated counter value):
old records are untouched and the new entry ends in its final form. -/
theorem requestPath_table (t : APICallRecordTable) (r1 r2 : Record)
    (h1 : r1.identifier = t.nextIdentifier)
    (h2 : r2.identifier = t.nextIdentifier)
    (hb : ∀ x ∈ t.records, x.identifier < t.nextIdentifier) :
    (t.createEntry.2.updateRecord r1).updateRecord r2 =
      { records := t.records ++ [r2]
        nextIdentifier := t.nextIdentifier + 1 } := by
  have hne1 : ∀ x ∈ t.records, x.identifier ≠ r1.identifier := fun x hx => by
    rw [h1]; exact Nat.ne_of_lt (hb x hx)
  have hne2 : ∀ x ∈ t.records, x.identifier ≠ r2.identifier := fun x hx => by
    rw [h2]; exact Nat.ne_of_lt (hb x hx)
  apply table_ext
  · rw [updateRecord_records, updateRecord_records, createEntry_snd_records]
    rw [List.map_append, List.map_append]
    rw [map_update_of_fresh t.records r1 hne1,
      map_update_of_fresh t.records r2 hne2]
    congr 1
    simp [createEntry_fst_identifier, h1, h2]
  · rfl

/-- In a list of records with pairwise-distinct identifiers, `find?` by
identifier returns exactly the member carrying that identifier. -/
theorem find?_eq_of_mem_of_nodup {l : List Record}
    (hnd : (l.map Record.identifier).Nodup) {rec : Record} {cid : CallId}
    (hmem : rec ∈ l) (hid : rec.identifier = cid) :
    l.find? (fun r => r.identifier == cid) = some rec := by
  induction l with
  | nil => cases hmem
  | cons hd tl ih =>
    simp only [List.map_cons, List.nodup_cons] at hnd
    rcases List.mem_cons.mp hmem with h | h
    · subst h
      exact List.find?_cons_of_pos tl (by simp [hid])
    · have hne : ¬(hd.identifier == cid) = true := by
        simp only [beq_iff_eq]
        intro e
        exact hnd.1 (e ▸ hid ▸ List.mem_map_of_mem Record.identifier h)
      rw [List.find?_cons_of_neg tl hne]
      exact ih hnd.2 h

theorem findRecordWithID_eq_of_find?_none (t : APICallRecordTable)
    (cid : CallId)
    (h : t.records.find? (fun x => x.identifier == cid) = none) :
    t.findRecordWithID cid =
      { success := false, value := none
        errorMessage := some "record not found" } := by
  unfold APICallRecordTable.findRecordWithID
  rw [h]

theorem findRecordWithID_eq_of_find?_some (t : APICallRecordTable)
    (cid : CallId) (x : Record)
    (h : t.records.find? (fun r => r.identifier == cid) = some x) :
    t.findRecordWithID cid =
      { success := true, value := some x, errorMessage := none } := by
  unfold APICallRecordTable.findRecordWithID
  rw [h]

/-! ### The claims -/

/-- C8: on a packet whose `determineMessageType` fails, `processMessage`
creates no call record (the table is unchanged) and sends exactly one REPLY
packet back to the inbound sender, with content
`formatErrorMessage(FAILED_TO_DETERMINE_MESSAGE_TYPE)` and
`ReportMetadata.upstreamCallId` equal to the inbound packet's route-metadata
upstream call id when present and `none` otherwise. -/
theorem processMessage_classification_failure_spec
    (hub : HubBackend) (a : AAISProcessAddress) (t : APICallRecordTable)
    (p : AAISMessagePacket)
    (h : (hub.determineMessageType p).success = false) :
    processMessage hub a t p =
      ProcessOutcome.ok t
        [{ packet :=
             { header :=
                 { messageType := MessageType.communication
                   senderAddress := a }
               content :=
                 hub.formatErrorMessage
                   ErrorType.FAILED_TO_DETERMINE_MESSAGE_TYPE none
               metadata := PacketMetadata.report (routeUpstreamId p) }
           destination := p.header.senderAddress }] := by
  simp only [processMessage, h, Bool.false_eq_true, if_false]

/-- Witness for C8: the demo hub on the unclassifiable packet. -/
theorem processMessage_classification_failure_spec_witness :
    (demoHub.determineMessageType garbledPacket).success = false ∧
      processMessage demoHub hubAddress tableWithRunning garbledPacket =
        ProcessOutcome.ok tableWithRunning
          [{ packet :=
               { header :=
                   { messageType := MessageType.communication
                     senderAddress := hubAddress }
                 content :=
                   demoHub.formatErrorMessage
                     ErrorType.FAILED_TO_DETERMINE_MESSAGE_TYPE none
                 metadata :=
                   PacketMetadata.report (routeUpstreamId garbledPacket) }
             destination := garbledPacket.header.senderAddress }] :=
  ⟨by decide,
    processMessage_classification_failure_spec demoHub hubAddress
      tableWithRunning garbledPacket (by decide)⟩

/-- C2: on an inbound packet classified REQUEST for which `selectHandler`
succeeds, `processMessage` appends exactly one new call record — description
`summarizeRequest(payload)`, sender address from the inbound header, parent
identifier the inbound route metadata's upstream call id when present and
`none` otherwise, final status RUNNING — and sends exactly one
request-route packet to the selected entry's referee address whose
`RouteMetadata.upstreamCallId` is the new record's id. -/
theorem processMessage_request_dispatch_spec
    (hub : HubBackend) (a : AAISProcessAddress) (t : APICallRecordTable)
    (p : AAISMessagePacket) (entry : ReferenceTableEntry)
    (ht : t.WF)
    (hc : (hub.determineMessageType p).success = true)
    (hv : (hub.determineMessageType p).value =
      some APIServerMessageType.REQUEST)
    (hs : (hub.selectHandler p.content).success = true)
    (he : (hub.selectHandler p.content).value = some entry) :
    processMessage hub a t p =
      ProcessOutcome.ok
        { records := t.records ++
            [{ description := hub.summarizeRequest p.content
               identifier := t.nextIdentifier
               parentIdentifier := routeUpstreamId p
               senderAddress := p.header.senderAddress
               status := APICallStatus.RUNNING }]
          nextIdentifier := t.nextIdentifier + 1 }
        [{ packet :=
             { header :=
                 { messageType := MessageType.communication
                   senderAddress := a }
               content := hub.formatRequestForChildServer p.content entry
               metadata := PacketMetadata.route t.nextIdentifier }
           destination := entry.refereeAddress }] := by
  simp only [processMessage, hc, hv, hs, he]
  rw [requestPath_table _ _ _ rfl rfl ht.1]
  simp [createEntry_fst_identifier]

/-- Witness for C2: the spec's concrete scenario — the demo hub dispatches
"resize photo" to child A, creating record 8 in RUNNING status. -/
theorem processMessage_request_dispatch_spec_witness :
    tableWithRunning.WF ∧
      (demoHub.determineMessageType requestPacket).success = true ∧
      (demoHub.determineMessageType requestPacket).value =
        some APIServerMessageType.REQUEST ∧
      (demoHub.selectHandler requestPacket.content).success = true ∧
      (demoHub.selectHandler requestPacket.content).value = some entryA ∧
      processMessage demoHub hubAddress tableWithRunning requestPacket =
        ProcessOutcome.ok
          { records := tableWithRunning.records ++
              [{ description := demoHub.summarizeRequest requestPacket.content
                 identifier := tableWithRunning.nextIdentifier
                 parentIdentifier := routeUpstreamId requestPacket
                 senderAddress := requestPacket.header.senderAddress
                 status := APICallStatus.RUNNING }]
            nextIdentifier := tableWithRunning.nextIdentifier + 1 }
          [{ packet :=
               { header :=
                   { messageType := MessageType.communication
                     senderAddress := hubAddress }
                 content :=
                   demoHub.formatRequestForChildServer requestPacket.content
                     entryA
                 metadata :=
                   PacketMetadata.route tableWithRunning.nextIdentifier }
             destination := entryA.refereeAddress }] :=
  ⟨by decide, by decide, by decide, by decide, by decide,
    processMessage_request_dispatch_spec demoHub hubAddress tableWithRunning
      requestPacket entryA (by decide) (by decide) (by decide) (by decide)
      (by decide)⟩

/-- C6: on an inbound packet classified REQUEST for which `selectHandler`
fails, `processMessage` sends exactly one error REPLY — content
`formatErrorMessage(FAILED_TO_FIND_HANDLER, selector error context)`,
`ReportMetadata.upstreamCallId` equal to the new record's parent identifier
— to the inbound sender's address; the new record ends in FAILURE status and
no packet goes to any child (the single sent packet is addressed to the
inbound sender). -/
theorem processMessage_no_handler_failure_spec
    (hub : HubBackend) (a : AAISProcessAddress) (t : APICallRecordTable)
    (p : AAISMessagePacket)
    (ht : t.WF)
    (hc : (hub.determineMessageType p).success = true)
    (hv : (hub.determineMessageType p).value =
      some APIServerMessageType.REQUEST)
    (hs : (hub.selectHandler p.content).success = false) :
    processMessage hub a t p =
      ProcessOutcome.ok
        { records := t.records ++
            [{ description := hub.summarizeRequest p.content
               identifier := t.nextIdentifier
               parentIdentifier := routeUpstreamId p
               senderAddress := p.header.senderAddress
               status := APICallStatus.FAILURE }]
          nextIdentifier := t.nextIdentifier + 1 }
        [{ packet :=
             { header :=
                 { messageType := MessageType.communication
                   senderAddress := a }
               content :=
                 hub.formatErrorMessage ErrorType.FAILED_TO_FIND_HANDLER
                   (hub.selectHandler p.content).errorMessage
               metadata := PacketMetadata.report (routeUpstreamId p) }
           destination := p.header.senderAddress }] := by
  simp only [processMessage, hc, hv, hs, Bool.false_eq_true, if_false]
  rw [requestPath_table _ _ _ rfl rfl ht.1]
  simp [createEntry_fst_identifier]

/-- Witness for C6: the demo hub finds no handler for "fold laundry". -/
theorem processMessage_no_handler_failure_spec_witness :
    tableWithRunning.WF ∧
      (demoHub.determineMessageType unroutablePacket).success = true ∧
      (demoHub.determineMessageType unroutablePacket).value =
        some APIServerMessageType.REQUEST ∧
      (demoHub.selectHandler unroutablePacket.content).success = false ∧
      processMessage demoHub hubAddress tableWithRunning unroutablePacket =
        ProcessOutcome.ok
          { records := tableWithRunning.records ++
              [{ description :=
                   demoHub.summarizeRequest unroutablePacket.content
                 identifier := tableWithRunning.nextIdentifier
                 parentIdentifier := routeUpstreamId unroutablePacket
                 senderAddress := unroutablePacket.header.senderAddress
                 status := APICallStatus.FAILURE }]
            nextIdentifier := tableWithRunning.nextIdentifier + 1 }
          [{ packet :=
               { header :=
                   { messageType := MessageType.communication
                     senderAddress := hubAddress }
                 content :=
                   demoHub.formatErrorMessage
                     ErrorType.FAILED_TO_FIND_HANDLER
                     (demoHub.selectHandler unroutablePacket.content).errorMessage
                 metadata :=
                   PacketMetadata.report (routeUpstreamId unroutablePacket) }
             destination := unroutablePacket.header.senderAddress }] :=
  ⟨by decide, by decide, by decide, by decide,
    processMessage_no_handler_failure_spec demoHub hubAddress
      tableWithRunning unroutablePacket (by decide) (by decide) (by decide)
      (by decide)⟩

/-- C3: on an inbound REPLY whose correlation id matches a RUNNING record
and whose return result type is determined, `processMessage` sets the
record's status to the determined value and sends exactly one report packet
— content `formatReturnMessageForParent(payload, record)`,
`ReportMetadata.upstreamCallId` equal to the record's parent identifier —
to the record's stored sender address. -/
theorem processMessage_reply_relay_spec
    (hub : HubBackend) (a : AAISProcessAddress) (t : APICallRecordTable)
    (p : AAISMessagePacket) (cid : CallId) (rec : Record)
    (rt : APICallReturnResultType)
    (ht : t.WF)
    (hc : (hub.determineMessageType p).success = true)
    (hv : (hub.determineMessageType p).value =
      some APIServerMessageType.RETURN_MESSAGE)
    (hm : p.metadata = PacketMetadata.report (some cid))
    (hmem : rec ∈ t.records) (hid : rec.identifier = cid)
    (hrun : rec.status = APICallStatus.RUNNING)
    (hd : (hub.determineAPICallReturnResultType p.content rec).success = true)
    (hdv : (hub.determineAPICallReturnResultType p.content rec).value =
      some rt) :
    processMessage hub a t p =
      ProcessOutcome.ok
        (t.updateRecord { rec with status := resultStatus rt })
        [{ packet :=
             { header :=
                 { messageType := MessageType.communication
                   senderAddress := a }
               content :=
                 hub.formatReturnMessageForParent p.content
                   { rec with status := resultStatus rt }
               metadata := PacketMetadata.report rec.parentIdentifier }
           destination := rec.senderAddress }] := by
  have hfindID : t.findRecordWithID cid =
      { success := true, value := some rec, errorMessage := none } := by
    unfold APICallRecordTable.findRecordWithID
    rw [find?_eq_of_mem_of_nodup ht.2 hmem hid]
  simp only [processMessage, hc, hv, hm, hfindID, hrun, hd, hdv]
  cases rt <;> simp [resultStatus]

/-- Witness for C3: the demo hub relays child A's successful reply for
record 7 to the caller, carrying upstream call id 4. -/
theorem processMessage_reply_relay_spec_witness :
    tableWithRunning.WF ∧
      (demoHub.determineMessageType replyPacket).success = true ∧
      (demoHub.determineMessageType replyPacket).value =
        some APIServerMessageType.RETURN_MESSAGE ∧
      replyPacket.metadata = PacketMetadata.report (some 7) ∧
      runningRecord ∈ tableWithRunning.records ∧
      runningRecord.identifier = 7 ∧
      runningRecord.status = APICallStatus.RUNNING ∧
      (demoHub.determineAPICallReturnResultType replyPacket.content
          runningRecord).success = true ∧
      (demoHub.determineAPICallReturnResultType replyPacket.content
          runningRecord).value = some APICallReturnResultType.SUCCESS ∧
      processMessage demoHub hubAddress tableWithRunning replyPacket =
        ProcessOutcome.ok
          (tableWithRunning.updateRecord
            { runningRecord with
              status := resultStatus APICallReturnResultType.SUCCESS })
          [{ packet :=
               { header :=
                   { messageType := MessageType.communication
                     senderAddress := hubAddress }
                 content :=
                   demoHub.formatReturnMessageForParent replyPacket.content
                     { runningRecord with
                       status := resultStatus APICallReturnResultType.SUCCESS }
                 metadata :=
                   PacketMetadata.report runningRecord.parentIdentifier }
             destination := runningRecord.senderAddress }] :=
  ⟨by decide, by decide, by decide, by decide, by decide, by decide,
    by decide, by decide, by decide,
    processMessage_reply_relay_spec demoHub hubAddress tableWithRunning
      replyPacket 7 runningRecord APICallReturnResultType.SUCCESS (by decide)
      (by decide) (by decide) (by decide) (by decide) (by decide) (by decide)
      (by decide) (by decide)⟩

/-- C9: `findRecordWithID` is a total function into a typed result:
success exactly when a record with the identifier exists, whose value is a
table member carrying that identifier, and `none` value on failure; and an
inbound REPLY correlated to an id absent from the table yields exactly one
`FAILED_TO_MATCH_API_CALL_RECORD` error reply to the sender with no record
mutation. -/
theorem findRecordWithID_typed_spec
    (t : APICallRecordTable) (cid : CallId) (hub : HubBackend)
    (a : AAISProcessAddress) (p : AAISMessagePacket) :
    ((t.findRecordWithID cid).success = true ↔
      ∃ r ∈ t.records, r.identifier = cid) ∧
    (∀ r, (t.findRecordWithID cid).value = some r →
      r ∈ t.records ∧ r.identifier = cid) ∧
    ((t.findRecordWithID cid).success = false →
      (t.findRecordWithID cid).value = none) ∧
    ((hub.determineMessageType p).success = true →
      (hub.determineMessageType p).value =
        some APIServerMessageType.RETURN_MESSAGE →
      p.metadata = PacketMetadata.report (some cid) →
      (t.findRecordWithID cid).success = false →
      processMessage hub a t p =
        ProcessOutcome.ok t
          [{ packet :=
               { header :=
                   { messageType := MessageType.communication
                     senderAddress := a }
                 content :=
                   hub.formatErrorMessage
                     ErrorType.FAILED_TO_MATCH_API_CALL_RECORD
                     (t.findRecordWithID cid).errorMessage
                 metadata := PacketMetadata.plain }
             destination := p.header.senderAddress }]) := by
  refine ⟨?_, ?_, ?_, ?_⟩
  · rcases hf : t.records.find? (fun r => r.identifier == cid) with _ | r
    · rw [findRecordWithID_eq_of_find?_none t cid hf]
      simp only [List.find?_eq_none] at hf
      simp only [Bool.false_eq_true, false_iff]
      rintro ⟨r, hr, hrid⟩
      exact hf r hr (by simp [hrid])
    · rw [findRecordWithID_eq_of_find?_some t cid r hf]
      simp only [true_iff]
      exact ⟨r, List.mem_of_find?_eq_some hf, by
        have := List.find?_some hf
        simpa using this⟩
  · intro r hr
    rcases hf : t.records.find? (fun x => x.identifier == cid) with _ | x
    · rw [findRecordWithID_eq_of_find?_none t cid hf] at hr
      cases hr
    · rw [findRecordWithID_eq_of_find?_some t cid x hf] at hr
      simp only [Option.some.injEq] at hr
      subst hr
      exact ⟨List.mem_of_find?_eq_some hf, by
        have := List.find?_some hf
        simpa using this⟩
  · intro hfail
    rcases hf : t.records.find? (fun x => x.identifier == cid) with _ | x
    · rw [findRecordWithID_eq_of_find?_none t cid hf]
    · rw [findRecordWithID_eq_of_find?_some t cid x hf] at hfail
      cases hfail
  · intro hc hv hm hfail
    have hne : t.findRecordWithID cid =
        { success := false, value := none
          errorMessage := some "record not found" } := by
      rcases hf : t.records.find? (fun x => x.identifier == cid) with _ | x
      · exact findRecordWithID_eq_of_find?_none t cid hf
      · rw [findRecordWithID_eq_of_find?_some t cid x hf] at hfail
        cases hfail
    have hmsg : (t.findRecordWithID cid).errorMessage =
        some "record not found" := by rw [hne]
    rw [hmsg]
    simp only [processMessage, hc, hv, hm, hne]
    simp

/-- Witness for C9: lookup of id 99 in the demo table and the unmatched
demo reply. -/
theorem findRecordWithID_typed_spec_witness :
    (((tableWithRunning.findRecordWithID 99).success = true ↔
      ∃ r ∈ tableWithRunning.records, r.identifier = 99) ∧
    (∀ r, (tableWithRunning.findRecordWithID 99).value = some r →
      r ∈ tableWithRunning.records ∧ r.identifier = 99) ∧
    ((tableWithRunning.findRecordWithID 99).success = false →
      (tableWithRunning.findRecordWithID 99).value = none) ∧
    ((demoHub.determineMessageType unmatchedReplyPacket).success = true →
      (demoHub.determineMessageType unmatchedReplyPacket).value =
        some APIServerMessageType.RETURN_MESSAGE →
      unmatchedReplyPacket.metadata = PacketMetadata.report (some 99) →
      (tableWithRunning.findRecordWithID 99).success = false →
      processMessage demoHub hubAddress tableWithRunning
          unmatchedReplyPacket =
        ProcessOutcome.ok tableWithRunning
          [{ packet :=
               { header :=
                   { messageType := MessageType.communication
                     senderAddress := hubAddress }
                 content :=
                   demoHub.formatErrorMessage
                     ErrorType.FAILED_TO_MATCH_API_CALL_RECORD
                     (tableWithRunning.findRecordWithID 99).errorMessage
                 metadata := PacketMetadata.plain }
             destination := unmatchedReplyPacket.header.senderAddress }])) ∧
    (tableWithRunning.findRecordWithID 99).success = false :=
  ⟨findRecordWithID_typed_spec tableWithRunning 99 demoHub hubAddress
      unmatchedReplyPacket,
    by decide⟩

/-- C4 counterexample: a REPLY correlated to a record already in SUCCESS
status makes `processMessage` fail its `record.status == RUNNING` assertion
and abort with no packet sent — no protocol-violation error report is
produced, contrary to the claim. -/
theorem duplicate_reply_unreported_counterexample :
    processMessage demoHub hubAddress tableWithDone replyPacket =
      ProcessOutcome.assertionError tableWithDone [] ∧
      (processMessage demoHub hubAddress tableWithDone replyPacket).sent =
        [] ∧
      (processMessage demoHub hubAddress tableWithDone replyPacket).isOk =
        false := by
  decide

/-- C4 (amended): on a REPLY whose correlation id matches a record whose
status is not RUNNING, `processMessage` performs no status transition and
sends no packet at all: the `assert record.status == RUNNING` fails and the
task aborts with the table unchanged — no error report is sent. -/
theorem processMessage_reply_non_running_asserts
    (hub : HubBackend) (a : AAISProcessAddress) (t : APICallRecordTable)
    (p : AAISMessagePacket) (cid : CallId) (rec : Record)
    (hc : (hub.determineMessageType p).success = true)
    (hv : (hub.determineMessageType p).value =
      some APIServerMessageType.RETURN_MESSAGE)
    (hm : p.metadata = PacketMetadata.report (some cid))
    (hfind : (t.findRecordWithID cid).value = some rec)
    (hnr : rec.status ≠ APICallStatus.RUNNING) :
    processMessage hub a t p = ProcessOutcome.assertionError t [] := by
  have hfindID : t.findRecordWithID cid =
      { success := true, value := some rec, errorMessage := none } := by
    rcases hf : t.records.find? (fun x => x.identifier == cid) with _ | x
    · rw [findRecordWithID_eq_of_find?_none t cid hf] at hfind
      cases hfind
    · have he := findRecordWithID_eq_of_find?_some t cid x hf
      rw [he] at hfind
      simp only [Option.some.injEq] at hfind
      rw [he, hfind]
  simp only [processMessage, hc, hv, hm, hfindID, hnr, if_false]
  simp

/-- Witness for the amended C4: the second reply for record 7 (now in
SUCCESS status) aborts the task. -/
theorem processMessage_reply_non_running_asserts_witness :
    (demoHub.determineMessageType replyPacket).success = true ∧
      (tableWithDone.findRecordWithID 7).value = some doneRecord ∧
      doneRecord.status ≠ APICallStatus.RUNNING ∧
      processMessage demoHub hubAddress tableWithDone replyPacket =
        ProcessOutcome.assertionError tableWithDone [] :=
  ⟨by decide, by decide, by decide,
    processMessage_reply_non_running_asserts demoHub hubAddress tableWithDone
      replyPacket 7 doneRecord (by decide) (by decide) (by decide) (by decide)
      (by decide)⟩

/-- C7 counterexample: a REPLY carrying no correlation id
(`ReportMetadata.upstreamCallId = none`) makes `processMessage` fail its
metadata assertion and abort with no packet sent — no
`FAILED_TO_MATCH_API_CALL_RECORD` error report is produced, contrary to the
claim. -/
theorem uncorrelated_reply_unreported_counterexample :
    processMessage demoHub hubAddress tableWithRunning
        uncorrelatedReplyPacket =
      ProcessOutcome.assertionError tableWithRunning [] ∧
      (processMessage demoHub hubAddress tableWithRunning
          uncorrelatedReplyPacket).sent = [] ∧
      (processMessage demoHub hubAddress tableWithRunning
          uncorrelatedReplyPacket).isOk = false := by
  decide

/-- C7 (amended): on an inbound packet classified REPLY that carries no
correlation id (report metadata with `none`, route metadata, or no metadata
at all), `processMessage` fails its metadata assertion and the task aborts
with the table unchanged and no packet sent; no error report of any kind is
produced. -/
theorem processMessage_reply_missing_correlation_asserts
    (hub : HubBackend) (a : AAISProcessAddress) (t : APICallRecordTable)
    (p : AAISMessagePacket)
    (hc : (hub.determineMessageType p).success = true)
    (hv : (hub.determineMessageType p).value =
      some APIServerMessageType.RETURN_MESSAGE)
    (hm : ∀ cid : CallId, p.metadata ≠ PacketMetadata.report (some cid)) :
    processMessage hub a t p = ProcessOutcome.assertionError t [] := by
  rcases hmd : p.metadata with _ | rid | oid
  · simp only [processMessage, hc, hv, hmd]
    simp
  · simp only [processMessage, hc, hv, hmd]
    simp
  · rcases oid with _ | cid
    · simp only [processMessage, hc, hv, hmd]
      simp
    · exact absurd hmd (hm cid)

/-- Witness for the amended C7: the uncorrelated demo reply aborts the
task. -/
theorem processMessage_reply_missing_correlation_asserts_witness :
    (demoHub.determineMessageType uncorrelatedReplyPacket).success = true ∧
      (∀ cid : CallId,
        uncorrelatedReplyPacket.metadata ≠
          PacketMetadata.report (some cid)) ∧
      processMessage demoHub hubAddress tableWithRunning
          uncorrelatedReplyPacket =
        ProcessOutcome.assertionError tableWithRunning [] :=
  ⟨by decide,
    (fun cid h => by simp [uncorrelatedReplyPacket] at h),
    processMessage_reply_missing_correlation_asserts demoHub hubAddress
      tableWithRunning uncorrelatedReplyPacket (by decide) (by decide)
      (fun cid h => by simp [uncorrelatedReplyPacket] at h)⟩

/-! ### Record creation: freshness and uniqueness -/

theorem createEntries_ids (t : APICallRecordTable) (n : Nat) :
    (t.createEntries n).1.map Record.identifier =
      List.range' t.nextIdentifier n := by
  induction n generalizing t with
  | zero => rfl
  | succ n ih =>
    simp only [APICallRecordTable.createEntries, List.map_cons, ih]
    rfl

theorem createEntries_snd_records (t : APICallRecordTable) (n : Nat) :
    (t.createEntries n).2.records = t.records ++ (t.createEntries n).1 := by
  induction n generalizing t with
  | zero => simp [APICallRecordTable.createEntries]
  | succ n ih =>
    simp only [APICallRecordTable.createEntries]
    rw [ih, createEntry_snd_records]
    simp

theorem createEntries_status (t : APICallRecordTable) (n : Nat) :
    ∀ r ∈ (t.createEntries n).1, r.status = APICallStatus.UNHANDLED := by
  induction n generalizing t with
  | zero => intro r hr; cases hr
  | succ n ih =>
    intro r hr
    simp only [APICallRecordTable.createEntries] at hr
    rcases List.mem_cons.mp hr with h | h
    · subst h; rfl
    · exact ih _ r h

/-- C5: every `createEntry()` call inserts one new UNHANDLED record into the
table and returns a handle to it, with an identifier distinct from every
stored one; over any sequence of `createEntry()` calls the returned records
all reach the table in UNHANDLED status and their identifiers are pairwise
distinct. -/
theorem createEntry_unhandled_unique (t : APICallRecordTable) (n : Nat)
    (ht : t.WF) :
    t.createEntry.1.status = APICallStatus.UNHANDLED ∧
      t.createEntry.2.records = t.records ++ [t.createEntry.1] ∧
      t.createEntry.1.identifier ∉ t.records.map Record.identifier ∧
      (∀ r ∈ (t.createEntries n).1,
        r.status = APICallStatus.UNHANDLED ∧
          r ∈ (t.createEntries n).2.records) ∧
      ((t.createEntries n).1.map Record.identifier).Nodup := by
  refine ⟨rfl, rfl, ?_, ?_, ?_⟩
  · intro hmem
    simp only [List.mem_map] at hmem
    rcases hmem with ⟨x, hx, hxe⟩
    have hxl := ht.1 x hx
    rw [createEntry_fst_identifier] at hxe
    have hxe2 : x.identifier = t.nextIdentifier := hxe
    exact absurd hxe2 (Nat.ne_of_lt hxl)
  · intro r hr
    refine ⟨createEntries_status t n r hr, ?_⟩
    rw [createEntries_snd_records]
    exact List.mem_append_right _ hr
  · rw [createEntries_ids]
    exact List.nodup_range' _ _

/-- Witness for C5: three successive creations on the demo table. -/
theorem createEntry_unhandled_unique_witness :
    tableWithRunning.WF ∧
      tableWithRunning.createEntry.1.status = APICallStatus.UNHANDLED ∧
      tableWithRunning.createEntry.2.records =
        tableWithRunning.records ++ [tableWithRunning.createEntry.1] ∧
      tableWithRunning.createEntry.1.identifier ∉
        tableWithRunning.records.map Record.identifier ∧
      (∀ r ∈ (tableWithRunning.createEntries 3).1,
        r.status = APICallStatus.UNHANDLED ∧
          r ∈ (tableWithRunning.createEntries 3).2.records) ∧
      ((tableWithRunning.createEntries 3).1.map Record.identifier).Nodup :=
  ⟨by decide, createEntry_unhandled_unique tableWithRunning 3 (by decide)⟩

/-! ### The hub-wide invariants: sent-packet headers and the status state
machine -/

theorem requestPath_partial_getElem? (t : APICallRecordTable) (r1 : Record)
    (h1 : r1.identifier = t.nextIdentifier)
    (hb : ∀ x ∈ t.records, x.identifier < t.nextIdentifier)
    (i : Nat) (old : Record) (hold : t.records[i]? = some old) :
    (t.createEntry.2.updateRecord r1).records[i]? = some old := by
  have hne : old.identifier ≠ r1.identifier := by
    rw [h1]
    exact Nat.ne_of_lt (hb old (List.getElem?_mem hold))
  apply updateRecord_getElem?_of_ne
  · rw [createEntry_snd_records]
    rcases List.getElem?_eq_some.mp hold with ⟨hi, _⟩
    rw [List.getElem?_append_left hi]
    exact hold
  · exact hne

theorem findRecordWithID_value_props (t : APICallRecordTable) (cid : CallId)
    (rec : Record) (h : (t.findRecordWithID cid).value = some rec) :
    rec ∈ t.records ∧ rec.identifier = cid := by
  rcases hf : t.records.find? (fun x => x.identifier == cid) with _ | x
  · rw [findRecordWithID_eq_of_find?_none t cid hf] at h
    cases h
  · rw [findRecordWithID_eq_of_find?_some t cid x hf] at h
    simp only [Option.some.injEq] at h
    subst h
    refine ⟨List.mem_of_find?_eq_some hf, ?_⟩
    have := List.find?_some hf
    simpa using this

/-- The two execution-wide invariants of a `processMessage` run, proved by
one case analysis over all control paths: (a) every packet handed to the
transport carries the hub's own address and the `communication` message
kind in its header; (b) position-wise, every record present in the table at
entry is still present with the same identifier, and its status has made at
most one legal state-machine move. -/
theorem processMessage_invariants (hub : HubBackend) (a : AAISProcessAddress)
    (t : APICallRecordTable) (p : AAISMessagePacket) :
    (∀ sp ∈ (processMessage hub a t p).sent,
      sp.packet.header.senderAddress = a ∧
        sp.packet.header.messageType = MessageType.communication) ∧
    (t.WF → ∀ (i : Nat) (old : Record), t.records[i]? = some old →
      ∃ new : Record,
        (processMessage hub a t p).table.records[i]? = some new ∧
          new.identifier = old.identifier ∧
          legalStatusStep old.status new.status) := by
  constructor
  · intro sp hsp
    cases hcs : (hub.determineMessageType p).success with
    | false =>
      simp only [processMessage, hcs, ProcessOutcome.sent] at hsp
      simp at hsp
      subst hsp
      exact ⟨rfl, rfl⟩
    | true =>
      cases hval : (hub.determineMessageType p).value with
      | none =>
        simp [processMessage, hcs, hval, ProcessOutcome.sent] at hsp
      | some mt =>
        cases mt with
        | REQUEST =>
          cases hsel : (hub.selectHandler p.content).success with
          | false =>
            simp only [processMessage, hcs, hval, hsel,
              ProcessOutcome.sent] at hsp
            simp at hsp
            subst hsp
            exact ⟨rfl, rfl⟩
          | true =>
            cases hselv : (hub.selectHandler p.content).value with
            | none =>
              simp [processMessage, hcs, hval, hsel, hselv,
                ProcessOutcome.sent] at hsp
            | some entry =>
              simp only [processMessage, hcs, hval, hsel, hselv,
                ProcessOutcome.sent] at hsp
              simp at hsp
              subst hsp
              exact ⟨rfl, rfl⟩
        | RETURN_MESSAGE =>
          cases hmd : p.metadata with
          | plain =>
            simp [processMessage, hcs, hval, hmd, ProcessOutcome.sent] at hsp
          | route rid =>
            simp [processMessage, hcs, hval, hmd, ProcessOutcome.sent] at hsp
          | report oid =>
            cases oid with
            | none =>
              simp [processMessage, hcs, hval, hmd,
                ProcessOutcome.sent] at hsp
            | some cid =>
              cases hfs : (t.findRecordWithID cid).success with
              | false =>
                simp only [processMessage, hcs, hval, hmd, hfs,
                  ProcessOutcome.sent] at hsp
                simp at hsp
                subst hsp
                exact ⟨rfl, rfl⟩
              | true =>
                cases hfv : (t.findRecordWithID cid).value with
                | none =>
                  simp [processMessage, hcs, hval, hmd, hfs, hfv,
                    ProcessOutcome.sent] at hsp
                | some rec =>
                  by_cases hrs : rec.status = APICallStatus.RUNNING
                  · cases hds :
                        (hub.determineAPICallReturnResultType p.content
                          rec).success with
                    | false =>
                      simp only [processMessage, hcs, hval, hmd, hfs, hfv,
                        hrs, hds, ProcessOutcome.sent] at hsp
                      simp at hsp
                      subst hsp
                      exact ⟨rfl, rfl⟩
                    | true =>
                      cases hdv :
                          (hub.determineAPICallReturnResultType p.content
                            rec).value with
                      | none =>
                        simp only [processMessage, hcs, hval, hmd, hfs, hfv,
                          hrs, hds, hdv, ProcessOutcome.sent] at hsp
                        simp at hsp
                        subst hsp
                        exact ⟨rfl, rfl⟩
                      | some rt =>
                        cases rt <;>
                          (simp only [processMessage, hcs, hval, hmd, hfs,
                            hfv, hrs, hds, hdv, ProcessOutcome.sent] at hsp
                           simp at hsp
                           subst hsp
                           exact ⟨rfl, rfl⟩)
                  · simp [processMessage, hcs, hval, hmd, hfs, hfv, hrs,
                      ProcessOutcome.sent] at hsp
  · intro ht i old hold
    have hmem : old ∈ t.records := List.getElem?_mem hold
    have hlt : old.identifier < t.nextIdentifier := ht.1 old hmem
    cases hcs : (hub.determineMessageType p).success with
    | false =>
      refine ⟨old, ?_, rfl, Or.inl rfl⟩
      simp only [processMessage, hcs, ProcessOutcome.table]
      simpa using hold
    | true =>
      cases hval : (hub.determineMessageType p).value with
      | none =>
        refine ⟨old, ?_, rfl, Or.inl rfl⟩
        simp only [processMessage, hcs, hval, ProcessOutcome.table]
        simpa using hold
      | some mt =>
        cases mt with
        | REQUEST =>
          cases hsel : (hub.selectHandler p.content).success with
          | false =>
            refine ⟨old, ?_, rfl, Or.inl rfl⟩
            simp only [processMessage, hcs, hval, hsel, ProcessOutcome.table]
            simp only [Bool.false_eq_true, if_false, if_true]
            apply updateRecord_getElem?_of_ne
            · exact requestPath_partial_getElem? t _ rfl ht.1 i old hold
            · exact Nat.ne_of_lt hlt
          | true =>
            cases hselv : (hub.selectHandler p.content).value with
            | none =>
              refine ⟨old, ?_, rfl, Or.inl rfl⟩
              simp only [processMessage, hcs, hval, hsel, hselv,
                ProcessOutcome.table]
              simp only [if_true]
              exact requestPath_partial_getElem? t _ rfl ht.1 i old hold
            | some entry =>
              refine ⟨old, ?_, rfl, Or.inl rfl⟩
              simp only [processMessage, hcs, hval, hsel, hselv,
                ProcessOutcome.table]
              simp only [if_true]
              apply updateRecord_getElem?_of_ne
              · exact requestPath_partial_getElem? t _ rfl ht.1 i old hold
              · exact Nat.ne_of_lt hlt
        | RETURN_MESSAGE =>
          cases hmd : p.metadata with
          | plain =>
            refine ⟨old, ?_, rfl, Or.inl rfl⟩
            simp only [processMessage, hcs, hval, hmd, ProcessOutcome.table]
            simpa using hold
          | route rid =>
            refine ⟨old, ?_, rfl, Or.inl rfl⟩
            simp only [processMessage, hcs, hval, hmd, ProcessOutcome.table]
            simpa using hold
          | report oid =>
            cases oid with
            | none =>
              refine ⟨old, ?_, rfl, Or.inl rfl⟩
              simp only [processMessage, hcs, hval, hmd,
                ProcessOutcome.table]
              simpa using hold
            | some cid =>
              cases hfs : (t.findRecordWithID cid).success with
              | false =>
                refine ⟨old, ?_, rfl, Or.inl rfl⟩
                simp only [processMessage, hcs, hval, hmd, hfs,
                  ProcessOutcome.table]
                simpa using hold
              | true =>
                cases hfv : (t.findRecordWithID cid).value with
                | none =>
                  refine ⟨old, ?_, rfl, Or.inl rfl⟩
                  simp only [processMessage, hcs, hval, hmd, hfs, hfv,
                    ProcessOutcome.table]
                  simpa using hold
                | some rec =>
                  have hrecp := findRecordWithID_value_props t cid rec hfv
                  by_cases hrs : rec.status = APICallStatus.RUNNING
                  · cases hds :
                        (hub.determineAPICallReturnResultType p.content
                          rec).success with
                    | false =>
                      refine ⟨old, ?_, rfl, Or.inl rfl⟩
                      simp only [processMessage, hcs, hval, hmd, hfs, hfv,
                        hrs, hds, ProcessOutcome.table]
                      simpa using hold
                    | true =>
                      cases hdv :
                          (hub.determineAPICallReturnResultType p.content
                            rec).value with
                      | none =>
                        by_cases hidm : old.identifier = rec.identifier
                        · have hoe : old = rec :=
                            List.inj_on_of_nodup_map ht.2 hmem hrecp.1 hidm
                          refine ⟨rec, ?_, hoe ▸ rfl, hoe ▸ Or.inl rfl⟩
                          simp only [processMessage, hcs, hval, hmd, hfs,
                            hfv, hrs, hds, hdv, if_true, ProcessOutcome.table]
                          rw [updateRecord_getElem? t rec i old hold]
                          simp [hidm]
                        · refine ⟨old, ?_, rfl, Or.inl rfl⟩
                          simp only [processMessage, hcs, hval, hmd, hfs,
                            hfv, hrs, hds, hdv, if_true, ProcessOutcome.table]
                          exact updateRecord_getElem?_of_ne t rec i old hold
                            hidm
                      | some rt =>
                        by_cases hidm : old.identifier = rec.identifier
                        · have hoe : old = rec :=
                            List.inj_on_of_nodup_map ht.2 hmem hrecp.1 hidm
                          refine ⟨{ rec with status := resultStatus rt },
                            ?_, hoe ▸ rfl, ?_⟩
                          · cases rt <;>
                              (simp only [processMessage, hcs, hval, hmd,
                                hfs, hfv, hrs, hds, hdv, if_true,
                                ProcessOutcome.table, resultStatus]
                               rw [updateRecord_getElem? t _ i old hold]
                               simp [hidm])
                          · have hos : old.status = APICallStatus.RUNNING :=
                              hoe ▸ hrs
                            cases rt <;>
                              simp [legalStatusStep, resultStatus, hos]
                        · refine ⟨old, ?_, rfl, Or.inl rfl⟩
                          cases rt <;>
                            (simp only [processMessage, hcs, hval, hmd, hfs,
                              hfv, hrs, hds, hdv, if_true,
                              ProcessOutcome.table, resultStatus]
                             exact updateRecord_getElem?_of_ne t _ i old
                               hold hidm)
                  · refine ⟨old, ?_, rfl, Or.inl rfl⟩
                    simp only [processMessage, hcs, hval, hmd, hfs, hfv,
                      hrs, ProcessOutcome.table]
                    simpa using hold

/-- C1: across any `processMessage` execution, every record present in the
table at entry is still present (same position, same identifier) and its
status either stayed put or made one transition of the legal state machine
(UNHANDLED→RUNNING, UNHANDLED→FAILURE, RUNNING→SUCCESS, RUNNING→FAILURE);
in particular a record whose status is SUCCESS or FAILURE keeps that status. -/
theorem processMessage_status_machine_legal (hub : HubBackend)
    (a : AAISProcessAddress) (t : APICallRecordTable) (p : AAISMessagePacket)
    (ht : t.WF) (i : Nat) (old : Record)
    (hold : t.records[i]? = some old) :
    ∃ new : Record,
      (processMessage hub a t p).table.records[i]? = some new ∧
        new.identifier = old.identifier ∧
        legalStatusStep old.status new.status ∧
        ((old.status = APICallStatus.SUCCESS ∨
            old.status = APICallStatus.FAILURE) →
          new.status = old.status) := by
  rcases (processMessage_invariants hub a t p).2 ht i old hold with
    ⟨new, h1, h2, h3⟩
  refine ⟨new, h1, h2, h3, ?_⟩
  intro hterm
  rcases h3 with h | h | h | h | h
  · exact h.symm
  all_goals (rw [h.1] at hterm; rcases hterm with hc | hc <;> cases hc)

/-- Witness for C1: the demo reply transitions record 7 and the conclusion
holds at position 0 of the demo table. -/
theorem processMessage_status_machine_legal_witness :
    tableWithRunning.WF ∧
      tableWithRunning.records[0]? = some runningRecord ∧
      ∃ new : Record,
        (processMessage demoHub hubAddress tableWithRunning
            replyPacket).table.records[0]? = some new ∧
          new.identifier = runningRecord.identifier ∧
          legalStatusStep runningRecord.status new.status ∧
          ((runningRecord.status = APICallStatus.SUCCESS ∨
              runningRecord.status = APICallStatus.FAILURE) →
            new.status = runningRecord.status) :=
  ⟨by decide, by decide,
    processMessage_status_machine_legal demoHub hubAddress tableWithRunning
      replyPacket (by decide) 0 runningRecord (by decide)⟩

/-- C10: every packet `processMessage` hands to the transport — the
dispatch packet to a child, the relayed reply to a parent, and every error
report — carries the hub's own address as `header.senderAddress` and the
`communication` message kind as `header.messageType`. -/
theorem processMessage_sent_packets_header_spec (hub : HubBackend)
    (a : AAISProcessAddress) (t : APICallRecordTable) (p : AAISMessagePacket)
    (sp : SentPacket) (hsp : sp ∈ (processMessage hub a t p).sent) :
    sp.packet.header.senderAddress = a ∧
      sp.packet.header.messageType = MessageType.communication :=
  (processMessage_invariants hub a t p).1 sp hsp

/-- Witness for C10: the dispatch packet of the demo request carries the
hub's address and the communication kind. -/
theorem processMessage_sent_packets_header_spec_witness :
    ({ packet :=
         { header :=
             { messageType := MessageType.communication
               senderAddress := hubAddress }
           content := "for child: resize photo"
           metadata := PacketMetadata.route 8 }
       destination := childAddressA } : SentPacket) ∈
        (processMessage demoHub hubAddress tableWithRunning
          requestPacket).sent ∧
      ({ packet :=
           { header :=
               { messageType := MessageType.communication
                 senderAddress := hubAddress }
             content := "for child: resize photo"
             metadata := PacketMetadata.route 8 }
         destination := childAddressA } : SentPacket).packet.header.senderAddress =
        hubAddress ∧
      ({ packet :=
           { header :=
               { messageType := MessageType.communication
                 senderAddress := hubAddress }
             content := "for child: resize photo"
             metadata := PacketMetadata.route 8 }
         destination := childAddressA } : SentPacket).packet.header.messageType =
        MessageType.communication :=
  ⟨by decide,
    processMessage_sent_packets_header_spec demoHub hubAddress
      tableWithRunning requestPacket _ (by decide)⟩

end Athena
